import Mathlib

/-!  Verification of the quiz-solver sequence controller and output parser.

This development shallowly embeds the Python sources of the automated quiz
solver: the output parser `CodeExecutor._parse_submission_result`, the
execution adapter `CodeExecutor.execute_code`, the controller
`QuizHandler.solve_single_quiz` with its two retry helpers, the chain loop
`QuizHandler.solve_quiz_sequence`, and the webhook entry `handle_quiz`.
External effects (LLM calls, code execution, HTTP) are supplied by oracle
records; the outbound requests the system itself issues are recorded as an
explicit effect trace.  Python runtime values flowing through the parser are
modelled by `PyVal`, with Python truthiness and `dict.get` semantics. -/

/-- Python values as produced by `json.loads` / `ast.literal_eval` (the
subset handled: `None`, booleans, integers, strings, lists, dicts). -/
inductive PyVal where
  | none : PyVal
  | bool (b : Bool) : PyVal
  | int (n : Int) : PyVal
  | str (s : String) : PyVal
  | list (xs : List PyVal) : PyVal
  | dict (kvs : List (PyVal × PyVal)) : PyVal

/-- Python truthiness (`bool(x)`) for the modelled values. -/
def pyTruthy : PyVal → Bool
  | PyVal.none => false
  | PyVal.bool b => b
  | PyVal.int n => n != 0
  | PyVal.str s => s != ""
  | PyVal.list xs => !xs.isEmpty
  | PyVal.dict kvs => !kvs.isEmpty

/-- Python `x or y`: the first operand if truthy, else the second. -/
def pyOr (a b : PyVal) : PyVal := if pyTruthy a then a else b

/-- Python `d.get(k)` for a string key `k` on a dict built from a literal:
later duplicate keys overwrite earlier ones, a missing key gives `None`. -/
def dictGet (kvs : List (PyVal × PyVal)) (k : String) : PyVal :=
  kvs.foldl
    (fun acc kv =>
      match kv.1 with
      | PyVal.str s => if s == k then kv.2 else acc
      | _ => acc)
    PyVal.none

/- Character helpers.  Brace, quote and backslash characters are named
to keep the scanning code readable. -/

def lbrace : Char := Char.ofNat 123

def rbrace : Char := Char.ofNat 125

def squote : Char := Char.ofNat 39

def dquote : Char := Char.ofNat 34

def bslash : Char := Char.ofNat 92

/-- ASCII lower-casing, for the case-insensitive regex searches. -/
def lowerChar (c : Char) : Char :=
  if 'A' ≤ c && c ≤ 'Z' then Char.ofNat (c.toNat + 32) else c

/-- Python regex `\s` over ASCII: space, tab, newline, return, vtab, formfeed. -/
def isPyWs (c : Char) : Bool :=
  c == ' ' || c == '\t' || c == '\n' || c == '\r' ||
    c == Char.ofNat 11 || c == Char.ofNat 12

/-- JSON whitespace accepted by `json.loads`. -/
def isJsonWs (c : Char) : Bool :=
  c == ' ' || c == '\t' || c == '\n' || c == '\r'

def skipJWs (cs : List Char) : List Char := cs.dropWhile isJsonWs

def skipPWs (cs : List Char) : List Char := cs.dropWhile isPyWs

/-- Match a literal pattern case-insensitively (pattern given lower-case);
returns the remaining input on success. -/
def ciMatch : List Char → List Char → Option (List Char)
  | [], cs => some cs
  | _ :: _, [] => Option.none
  | p :: ps, c :: cs => if lowerChar c == p then ciMatch ps cs else Option.none

/-- Match a literal pattern case-sensitively; returns the remaining input. -/
def exMatch : List Char → List Char → Option (List Char)
  | [], cs => some cs
  | _ :: _, [] => Option.none
  | p :: ps, c :: cs => if c == p then exMatch ps cs else Option.none

def digitsToNat (ds : List Char) : Nat :=
  ds.foldl (fun a c => a * 10 + (c.toNat - 48)) 0

/-- Leftmost-match search: apply `f` at every position (including the end of
the string), returning the first success, as `re.search` does. -/
def scanO {α : Type} (f : List Char → Option α) : List Char → Option α
  | [] => f []
  | c :: t =>
    match f (c :: t) with
    | some v => some v
    | Option.none => scanO f t

/- Model of `json.loads` on the captured brace blobs.  Strings support the
standard escapes; numbers are integers (a fractional or exponent part makes
the model parse fail); objects and arrays may nest. -/

def hexDigit (c : Char) : Option Nat :=
  if '0' ≤ c && c ≤ '9' then some (c.toNat - 48)
  else if 'a' ≤ c && c ≤ 'f' then some (c.toNat - 87)
  else if 'A' ≤ c && c ≤ 'F' then some (c.toNat - 55)
  else Option.none

/-- Body of a JSON string after the opening quote: returns the decoded
characters and the input after the closing quote. -/
def jsonStrChars : List Char → Option (List Char × List Char)
  | [] => Option.none
  | c :: t =>
    if c == dquote then some ([], t)
    else if c == bslash then
      match t with
      | [] => Option.none
      | e :: t2 =>
        if e == 'u' then
          match t2 with
          | h1 :: h2 :: h3 :: h4 :: t6 =>
            match hexDigit h1, hexDigit h2, hexDigit h3, hexDigit h4 with
            | some a, some b, some c4, some d =>
              match jsonStrChars t6 with
              | some (s, r) =>
                some (Char.ofNat (((a * 16 + b) * 16 + c4) * 16 + d) :: s, r)
              | Option.none => Option.none
            | _, _, _, _ => Option.none
          | _ => Option.none
        else
          let dec : Option Char :=
            if e == dquote then some dquote
            else if e == bslash then some bslash
            else if e == '/' then some '/'
            else if e == 'b' then some (Char.ofNat 8)
            else if e == 'f' then some (Char.ofNat 12)
            else if e == 'n' then some (Char.ofNat 10)
            else if e == 'r' then some (Char.ofNat 13)
            else if e == 't' then some (Char.ofNat 9)
            else Option.none
          match dec with
          | some d =>
            match jsonStrChars t2 with
            | some (s, r) => some (d :: s, r)
            | Option.none => Option.none
          | Option.none => Option.none
    else if c.toNat < 32 then Option.none
    else
      match jsonStrChars t with
      | some (s, r) => some (c :: s, r)
      | Option.none => Option.none

/-- JSON integer literal (strict `json.loads` grammar; leading zeros are
rejected, fractional and exponent parts are outside the model). -/
def jsonNum (cs : List Char) : Option (PyVal × List Char) :=
  let p := match cs with
    | c :: t => if c == '-' then (true, t) else (false, cs)
    | [] => (false, cs)
  let ds := p.2.takeWhile Char.isDigit
  let rest := p.2.drop ds.length
  if ds.isEmpty then Option.none
  else if decide (1 < ds.length) && (ds.head? == some '0') then Option.none
  else
    match rest with
    | e :: _ =>
      if e == '.' || e == 'e' || e == 'E' then Option.none
      else some (PyVal.int (if p.1 then -(digitsToNat ds : Int) else (digitsToNat ds : Int)), rest)
    | [] => some (PyVal.int (if p.1 then -(digitsToNat ds : Int) else (digitsToNat ds : Int)), rest)

mutual

/-- JSON value parser (fuel-indexed recursive descent). -/
def jsonValue : Nat → List Char → Option (PyVal × List Char)
  | 0, _ => Option.none
  | Nat.succ fuel, cs =>
    match cs with
    | [] => Option.none
    | c :: t =>
      if c == dquote then
        match jsonStrChars t with
        | some (s, r) => some (PyVal.str (String.mk s), r)
        | Option.none => Option.none
      else if c == lbrace then
        match skipJWs t with
        | d :: r2 =>
          if d == rbrace then some (PyVal.dict [], r2)
          else
            match jsonMembers fuel (skipJWs t) with
            | some (kvs, r) => some (PyVal.dict kvs, r)
            | Option.none => Option.none
        | [] => Option.none
      else if c == '[' then
        match skipJWs t with
        | d :: r2 =>
          if d == ']' then some (PyVal.list [], r2)
          else
            match jsonElems fuel (skipJWs t) with
            | some (xs, r) => some (PyVal.list xs, r)
            | Option.none => Option.none
        | [] => Option.none
      else if c == 't' then
        match exMatch ['r', 'u', 'e'] t with
        | some r => some (PyVal.bool true, r)
        | Option.none => Option.none
      else if c == 'f' then
        match exMatch ['a', 'l', 's', 'e'] t with
        | some r => some (PyVal.bool false, r)
        | Option.none => Option.none
      else if c == 'n' then
        match exMatch ['u', 'l', 'l'] t with
        | some r => some (PyVal.none, r)
        | Option.none => Option.none
      else jsonNum cs

/-- One or more `"key": value` members of a JSON object, up to the `\x7d`. -/
def jsonMembers : Nat → List Char → Option (List (PyVal × PyVal) × List Char)
  | 0, _ => Option.none
  | Nat.succ fuel, cs =>
    match cs with
    | [] => Option.none
    | c :: t =>
      if c == dquote then
        match jsonStrChars t with
        | some (k, r1) =>
          match skipJWs r1 with
          | d :: r2 =>
            if d == ':' then
              match jsonValue fuel (skipJWs r2) with
              | some (v, r3) =>
                match skipJWs r3 with
                | e :: r4 =>
                  if e == ',' then
                    match jsonMembers fuel (skipJWs r4) with
                    | some (kvs, r5) => some ((PyVal.str (String.mk k), v) :: kvs, r5)
                    | Option.none => Option.none
                  else if e == rbrace then some ([(PyVal.str (String.mk k), v)], r4)
                  else Option.none
                | [] => Option.none
              | Option.none => Option.none
            else Option.none
          | [] => Option.none
        | Option.none => Option.none
      else Option.none

/-- One or more elements of a JSON array, up to the `]`. -/
def jsonElems : Nat → List Char → Option (List PyVal × List Char)
  | 0, _ => Option.none
  | Nat.succ fuel, cs =>
    match jsonValue fuel cs with
    | some (v, r1) =>
      match skipJWs r1 with
      | e :: r2 =>
        if e == ',' then
          match jsonElems fuel (skipJWs r2) with
          | some (xs, r3) => some (v :: xs, r3)
          | Option.none => Option.none
        else if e == ']' then some ([v], r2)
        else Option.none
      | [] => Option.none
    | Option.none => Option.none

end

/-- Model of `json.loads` applied to a captured blob: parse one value and
require only whitespace to remain. -/
def json_loads (cs : List Char) : Option PyVal :=
  match jsonValue (cs.length + 1) (skipJWs cs) with
  | some (v, r) => if (skipJWs r).isEmpty then some v else Option.none
  | Option.none => Option.none

/- Model of `ast.literal_eval` on the captured brace blobs, covering the
permissive shapes the parser relies on: single- or double-quoted strings,
capitalized `True` / `False` / `None`, integers, lists and dicts (with an
optional trailing comma).  Other literal forms fall outside the model and
parse as failure. -/

/-- Body of a Python string literal after its opening quote `q`; unknown
escapes keep the backslash, a raw newline is a syntax error. -/
def pyStrChars (q : Char) : List Char → Option (List Char × List Char)
  | [] => Option.none
  | c :: t =>
    if c == q then some ([], t)
    else if c == bslash then
      match t with
      | [] => Option.none
      | e :: t2 =>
        let dec : List Char :=
          if e == squote then [squote]
          else if e == dquote then [dquote]
          else if e == bslash then [bslash]
          else if e == 'n' then [Char.ofNat 10]
          else if e == 't' then [Char.ofNat 9]
          else if e == 'r' then [Char.ofNat 13]
          else [bslash, e]
        match pyStrChars q t2 with
        | some (s, r) => some (dec ++ s, r)
        | Option.none => Option.none
    else if c == Char.ofNat 10 || c == Char.ofNat 13 then Option.none
    else
      match pyStrChars q t with
      | some (s, r) => some (c :: s, r)
      | Option.none => Option.none

/-- Python integer literal with optional sign; leading zeros are only legal
when the literal is all zeros; fractional or exponent parts are outside the
model. -/
def pyNum (cs : List Char) : Option (PyVal × List Char) :=
  let p := match cs with
    | c :: t =>
      if c == '-' then (true, t) else if c == '+' then (false, t) else (false, cs)
    | [] => (false, cs)
  let ds := p.2.takeWhile Char.isDigit
  let rest := p.2.drop ds.length
  if ds.isEmpty then Option.none
  else if (ds.head? == some '0') && ds.any (fun c => c != '0') then Option.none
  else
    match rest with
    | e :: _ =>
      if e == '.' || e == 'e' || e == 'E' || e == 'j' || e == 'J' then Option.none
      else some (PyVal.int (if p.1 then -(digitsToNat ds : Int) else (digitsToNat ds : Int)), rest)
    | [] => some (PyVal.int (if p.1 then -(digitsToNat ds : Int) else (digitsToNat ds : Int)), rest)

mutual

/-- Python literal value parser (fuel-indexed recursive descent). -/
def pyValue : Nat → List Char → Option (PyVal × List Char)
  | 0, _ => Option.none
  | Nat.succ fuel, cs =>
    match cs with
    | [] => Option.none
    | c :: t =>
      if c == squote || c == dquote then
        match pyStrChars c t with
        | some (s, r) => some (PyVal.str (String.mk s), r)
        | Option.none => Option.none
      else if c == lbrace then
        match skipPWs t with
        | d :: r2 =>
          if d == rbrace then some (PyVal.dict [], r2)
          else
            match pyMembers fuel (skipPWs t) with
            | some (kvs, r) => some (PyVal.dict kvs, r)
            | Option.none => Option.none
        | [] => Option.none
      else if c == '[' then
        match skipPWs t with
        | d :: r2 =>
          if d == ']' then some (PyVal.list [], r2)
          else
            match pyElems fuel (skipPWs t) with
            | some (xs, r) => some (PyVal.list xs, r)
            | Option.none => Option.none
        | [] => Option.none
      else if c == 'T' then
        match exMatch ['r', 'u', 'e'] t with
        | some r => some (PyVal.bool true, r)
        | Option.none => Option.none
      else if c == 'F' then
        match exMatch ['a', 'l', 's', 'e'] t with
        | some r => some (PyVal.bool false, r)
        | Option.none => Option.none
      else if c == 'N' then
        match exMatch ['o', 'n', 'e'] t with
        | some r => some (PyVal.none, r)
        | Option.none => Option.none
      else pyNum cs

/-- One or more `key: value` members of a Python dict literal, up to the
closing brace; a key that is not followed by `:` (a set literal) fails. -/
def pyMembers : Nat → List Char → Option (List (PyVal × PyVal) × List Char)
  | 0, _ => Option.none
  | Nat.succ fuel, cs =>
    match pyValue fuel cs with
    | some (k, r1) =>
      match skipPWs r1 with
      | d :: r2 =>
        if d == ':' then
          match pyValue fuel (skipPWs r2) with
          | some (v, r3) =>
            match skipPWs r3 with
            | e :: r4 =>
              if e == ',' then
                match skipPWs r4 with
                | f :: r5 =>
                  if f == rbrace then some ([(k, v)], r5)
                  else
                    match pyMembers fuel (skipPWs r4) with
                    | some (kvs, r6) => some ((k, v) :: kvs, r6)
                    | Option.none => Option.none
                | [] => Option.none
              else if e == rbrace then some ([(k, v)], r4)
              else Option.none
            | [] => Option.none
          | Option.none => Option.none
        else Option.none
      | [] => Option.none
    | Option.none => Option.none

/-- One or more elements of a Python list literal, up to the `]`. -/
def pyElems : Nat → List Char → Option (List PyVal × List Char)
  | 0, _ => Option.none
  | Nat.succ fuel, cs =>
    match pyValue fuel cs with
    | some (v, r1) =>
      match skipPWs r1 with
      | e :: r2 =>
        if e == ',' then
          match skipPWs r2 with
          | f :: r3 =>
            if f == ']' then some ([v], r3)
            else
              match pyElems fuel (skipPWs r2) with
              | some (xs, r4) => some (v :: xs, r4)
              | Option.none => Option.none
          | [] => Option.none
        else if e == ']' then some ([v], r2)
        else Option.none
      | [] => Option.none
    | Option.none => Option.none

end

/-- Model of `ast.literal_eval` applied to a captured blob. -/
def literal_eval (cs : List Char) : Option PyVal :=
  match pyValue (cs.length + 1) (skipPWs cs) with
  | some (v, r) => if (skipPWs r).isEmpty then some v else Option.none
  | Option.none => Option.none

/-- The parser's two-strategy blob parse: `json.loads` first, then
`ast.literal_eval` (source lines 295-305 and 325-333 of code_executor.py). -/
def blobParse (cs : List Char) : Option PyVal :=
  match json_loads cs with
  | some v => some v
  | Option.none => literal_eval cs

/- Models of the three regular-expression extractions of
`CodeExecutor._parse_submission_result`. -/

/-- Attempt of the status-code regex
`(?:Status|STATUS|REQUEST_STATUS)(?:\s+Code)?:\s*(\d+)` (IGNORECASE)
anchored at the current position; mirrors the greedy-optional backtracking:
the ` Code` branch is tried first, then the empty branch. -/
def statusAt (cs : List Char) : Option Nat :=
  let colonDigits : List Char → Option Nat := fun r =>
    match r with
    | c :: t =>
      if c == ':' then
        let ds := (t.dropWhile isPyWs).takeWhile Char.isDigit
        if ds.isEmpty then Option.none else some (digitsToNat ds)
      else Option.none
    | [] => Option.none
  let lab := match ciMatch "status".data cs with
    | some r => some r
    | Option.none => ciMatch "request_status".data cs
  match lab with
  | Option.none => Option.none
  | some r =>
    let wsn := (r.takeWhile isPyWs).length
    let codeBranch : Option Nat :=
      if 0 < wsn then
        match ciMatch "code".data (r.drop wsn) with
        | some r2 => colonDigits r2
        | Option.none => Option.none
      else Option.none
    match codeBranch with
    | some n => some n
    | Option.none => colonDigits r

/-- First match of the status-code regex, as `re.search`. -/
def statusSearch (s : String) : Option Nat := scanO statusAt s.data

/-- Attempt of the response-body regex
`(?:Response|RESPONSE|SERVER_RESPONSE)(?:\s+Body)?:\s*(\{.*?\})`
(DOTALL, IGNORECASE) at the current position; the non-greedy blob runs from
the opening brace to the first closing brace after it. -/
def respAt (cs : List Char) : Option (List Char) :=
  let colonBlob : List Char → Option (List Char) := fun r =>
    match r with
    | c :: t =>
      if c == ':' then
        match t.dropWhile isPyWs with
        | b :: t2 =>
          if b == lbrace then
            let body := t2.takeWhile (fun ch => ch != rbrace)
            if body.length == t2.length then Option.none
            else some (lbrace :: (body ++ [rbrace]))
          else Option.none
        | [] => Option.none
      else Option.none
    | [] => Option.none
  let lab := match ciMatch "response".data cs with
    | some r => some r
    | Option.none => ciMatch "server_response".data cs
  match lab with
  | Option.none => Option.none
  | some r =>
    let wsn := (r.takeWhile isPyWs).length
    let bodyBranch : Option (List Char) :=
      if 0 < wsn then
        match ciMatch "body".data (r.drop wsn) with
        | some r2 => colonBlob r2
        | Option.none => Option.none
      else Option.none
    match bodyBranch with
    | some blob => some blob
    | Option.none => colonBlob r

/-- First match of the response-body regex, as `re.search`. -/
def respSearch (s : String) : Option (List Char) := scanO respAt s.data

def isQuoteCh (c : Char) : Bool := c == squote || c == dquote

/-- Does a brace-free segment contain a quoted `correct` key, as required by
the scavenger regex `[\"\x27]correct[\"\x27]` (case-sensitive)? -/
def hasQuotedCorrect : List Char → Bool
  | [] => false
  | c :: t =>
    (isQuoteCh c &&
      (match exMatch "correct".data t with
       | some (q :: _) => isQuoteCh q
       | _ => false)) ||
    hasQuotedCorrect t

/-- Attempt of the scavenger regex `\{[^\x7b\x7d]*[\"\x27]correct[\"\x27][^\x7b\x7d]*\}`
at the current position: a brace-free span between one `\x7b` and the next
`\x7d`, containing a quoted `correct`.  Returns the match and the rest. -/
def candAt (cs : List Char) : Option (List Char × List Char) :=
  match cs with
  | [] => Option.none
  | c :: t =>
    if c == lbrace then
      let seg := t.takeWhile (fun ch => ch != lbrace && ch != rbrace)
      match t.drop seg.length with
      | d :: t2 =>
        if d == rbrace && hasQuotedCorrect seg then
          some (lbrace :: (seg ++ [rbrace]), t2)
        else Option.none
      | [] => Option.none
    else Option.none

/-- Left-to-right non-overlapping matches of the scavenger regex, as
`re.findall` (fuel-indexed; the fuel is instantiated with the input length). -/
def findallAux : Nat → List Char → List (List Char)
  | 0, _ => []
  | Nat.succ _, [] => []
  | Nat.succ fuel, c :: t =>
    match candAt (c :: t) with
    | some (m, rest) => m :: findallAux fuel rest
    | Option.none => findallAux fuel t

/-- All scavenger candidates of the captured output. -/
def scavCands (s : String) : List (List Char) := findallAux s.data.length s.data

/-- The structured verdict dict built by `_parse_submission_result`, with
its four fixed keys; every field is a Python value initialised to `None`. -/
structure Submission where
  correct : PyVal
  next_url : PyVal
  reason : PyVal
  status_code : PyVal

/-- The initial all-`None` verdict. -/
def emptySubmission : Submission :=
  { correct := PyVal.none, next_url := PyVal.none,
    reason := PyVal.none, status_code := PyVal.none }

/-- Field extraction shared by the primary step and the scavenger:
`correct` / `url`-or-`next_url` / `reason` from a parsed dict. -/
def extractFields (kvs : List (PyVal × PyVal)) (sub : Submission) : Submission :=
  { sub with
      correct := dictGet kvs "correct",
      next_url := pyOr (dictGet kvs "url") (dictGet kvs "next_url"),
      reason := dictGet kvs "reason" }

/-- Primary response-body extraction (step 2 of the parser).  The boolean is
`false` when field extraction raised (`.get` on a non-dict), which aborts
the surrounding `try` and skips the scavenger. -/
def applyPrimary (s : String) (sub : Submission) : Submission × Bool :=
  match respSearch s with
  | Option.none => (sub, true)
  | some blob =>
    match blobParse blob with
    | Option.none => (sub, true)
    | some v =>
      if pyTruthy v then
        match v with
        | PyVal.dict kvs => (extractFields kvs sub, true)
        | _ => (sub, false)
      else (sub, true)

/-- Scavenger loop (step 3 of the parser): first candidate that parses wins;
candidates failing both parses are skipped; a parse to a non-dict aborts. -/
def applyScav : List (List Char) → Submission → Submission
  | [], sub => sub
  | c :: rest, sub =>
    match blobParse c with
    | Option.none => applyScav rest sub
    | some (PyVal.dict kvs) => extractFields kvs sub
    | some _ => sub

/-- Steps 1 and 2 of the parser: the status-code search followed by the
primary response-body extraction. -/
def primaryPhase (s : String) : Submission × Bool :=
  let sub1 := match statusSearch s with
    | some n => { emptySubmission with status_code := PyVal.int (n : Int) }
    | Option.none => emptySubmission
  applyPrimary s sub1

/-- Model of `CodeExecutor._parse_submission_result`: status code, primary
extraction, then the scavenger gated on `correct` still being `None`. -/
def parse_submission_result (s : String) : Submission :=
  let p := primaryPhase s
  if p.2 then
    match p.1.correct with
    | PyVal.none => applyScav (scavCands s) p.1
    | _ => p.1
  else p.1

/- Data model of the execution adapter and the sequence controller. -/

/-- The `submission_result` value handed to the controller: either the empty
dict `\x7b\x7d` (produced for empty captured output) or the four-key verdict dict
produced by the parser.  A non-empty dict is truthy even when every field is
`None`. -/
inductive SubRes where
  | empty : SubRes
  | verdict (v : Submission) : SubRes

/-- Python truthiness of the submission dict: `\x7b\x7d` is falsy, the four-key
verdict dict is always truthy. -/
def SubRes.truthy : SubRes → Bool
  | SubRes.empty => false
  | SubRes.verdict _ => true

/-- Python `submission_result.get(\x27correct\x27)`. -/
def SubRes.getCorrect : SubRes → PyVal
  | SubRes.empty => PyVal.none
  | SubRes.verdict v => v.correct

/-- Python `submission_result.get(\x27next_url\x27)`. -/
def SubRes.getNextUrl : SubRes → PyVal
  | SubRes.empty => PyVal.none
  | SubRes.verdict v => v.next_url

/-- Configured settings consumed by the controller and executor
(config.py); times are integer seconds. -/
structure Settings where
  QUIZ_TIMEOUT_SECONDS : Int
  SKIP_THRESHOLD_SECONDS : Int
  STUDENT_EMAIL : String
  STUDENT_SECRET : String

/-- Body of an outbound fallback POST. -/
structure Payload where
  email : String
  secret : String
  url : PyVal
  answer : String

/-- Observable outbound activity of one run: LLM round trips, credential
injection into an execution environment, and fallback POSTs. -/
inductive Effect where
  | genCall : Effect
  | inject (email secret : String) (url : PyVal) : Effect
  | fallbackPost (url : PyVal) (payload : Payload) : Effect

/-- Oracle for one call of `CodeExecutor.execute_code`: whether `exec`
raised, the captured stdout, and the error summary on failure. -/
structure ExecOracle where
  success : Bool
  output : String
  errorMsg : String

/-- The dict returned by `CodeExecutor.execute_code`. -/
structure ExecResult where
  success : Bool
  output : String
  error : Option String
  submission_result : Option SubRes

/-- Model of `CodeExecutor.execute_code`: credentials and the quiz URL are
injected from settings, stdout is captured, and the `finally` block always
fills `submission_result` — with the empty dict for empty output, and the
parsed verdict otherwise. -/
def execute_code (S : Settings) (url : PyVal) (o : ExecOracle) :
    ExecResult × List Effect :=
  ({ success := o.success,
     output := o.output,
     error := if o.success then Option.none else some o.errorMsg,
     submission_result :=
       some (if o.output = "" then SubRes.empty
             else SubRes.verdict (parse_submission_result o.output)) },
   [Effect.inject S.STUDENT_EMAIL S.STUDENT_SECRET url])

/-- Terminal status of one question. -/
inductive Status where
  | correct : Status
  | incorrect : Status
  | skipped : Status
  | error : Status
deriving DecidableEq

/-- The outcome dict of one question: `\x7b\x27status\x27: ..., \x27next_url\x27: ...\x7d`. -/
structure Outcome where
  status : Status
  next_url : PyVal

/-- The fallback payload built by `QuizHandler.submit_fallback`: credentials
come from settings, the answer is the literal `"FAILED"`. -/
def fallbackPayload (S : Settings) (url : PyVal) : Payload :=
  { email := S.STUDENT_EMAIL, secret := S.STUDENT_SECRET,
    url := url, answer := "FAILED" }

/-- Outcome derived from the fallback response in the controller: if the
response exists and its JSON body is a dict, the question ends INCORRECT
with that dict's `url` field as next URL; any failure (no response, body not
JSON, body not a dict) ends ERROR with no next URL. -/
def fallbackOutcome (resp : Option PyVal) : Outcome :=
  match resp with
  | some (PyVal.dict kvs) => { status := Status.incorrect, next_url := dictGet kvs "url" }
  | some _ => { status := Status.error, next_url := PyVal.none }
  | Option.none => { status := Status.error, next_url := PyVal.none }

/-- Oracle for one retry helper: the elapsed seconds at its initial clock
read, the LLM result (`none` models the LLM call failing), and the
execution oracle for the one retry execution. -/
structure HelperOracle where
  elapsed : Int
  gen : Option String
  exec : ExecOracle

/-- Model of `QuizHandler.retry_with_fix` (after an execution error): bail
out with ERROR below the skip threshold; `analyze_error_and_retry` raising
is caught as ERROR; otherwise one execution, and the verdict is judged by
truthiness of `correct` alone. -/
def retry_with_fix (S : Settings) (url : PyVal) (o : HelperOracle) :
    Outcome × List Effect :=
  if S.QUIZ_TIMEOUT_SECONDS - o.elapsed < S.SKIP_THRESHOLD_SECONDS then
    ({ status := Status.error, next_url := PyVal.none }, [])
  else
    match o.gen with
    | Option.none => ({ status := Status.error, next_url := PyVal.none }, [Effect.genCall])
    | some _ =>
      let ec := execute_code S url o.exec
      let effs := Effect.genCall :: ec.2
      if ec.1.success then
        let sub := ec.1.submission_result.getD SubRes.empty
        if pyTruthy (SubRes.getCorrect sub) then
          ({ status := Status.correct, next_url := SubRes.getNextUrl sub }, effs)
        else
          ({ status := Status.incorrect, next_url := SubRes.getNextUrl sub }, effs)
      else ({ status := Status.error, next_url := PyVal.none }, effs)

/-- Model of `QuizHandler.retry_with_feedback` (after an incorrect answer):
bail out with INCORRECT below the skip threshold; otherwise one new
generation and execution; an empty submission dict is ERROR, and otherwise
the verdict is judged by truthiness of `correct` alone. -/
def retry_with_feedback (S : Settings) (url : PyVal) (o : HelperOracle) :
    Outcome × List Effect :=
  if S.QUIZ_TIMEOUT_SECONDS - o.elapsed < S.SKIP_THRESHOLD_SECONDS then
    ({ status := Status.incorrect, next_url := PyVal.none }, [])
  else
    let ec := execute_code S url o.exec
    let effs := Effect.genCall :: ec.2
    if ec.1.success then
      let sub := ec.1.submission_result.getD SubRes.empty
      if SubRes.truthy sub = false then
        ({ status := Status.error, next_url := PyVal.none }, effs)
      else if pyTruthy (SubRes.getCorrect sub) then
        ({ status := Status.correct, next_url := SubRes.getNextUrl sub }, effs)
      else
        ({ status := Status.incorrect, next_url := SubRes.getNextUrl sub }, effs)
    else ({ status := Status.error, next_url := PyVal.none }, effs)

/-- The handler object; its constructor arguments are the webhook request's
email and secret. -/
structure QuizHandler where
  email : String
  secret : String

/-- Oracle for one call of `QuizHandler.solve_single_quiz`: page fetch
success, the two generation attempts, the main execution, the clock reads
at the three decision points, the two retry-helper oracles, and the parsed
JSON body of the fallback response (`none` models a failed POST or an
unparseable body). -/
structure SolveOracle where
  fetchOk : Bool
  gen1 : Option String
  elapsedGen : Int
  gen2 : Option String
  exec1 : ExecOracle
  elapsedExec : Int
  fixO : HelperOracle
  elapsedParse : Int
  feedO : HelperOracle
  fallbackResp : Option PyVal

/-- Steps 3 and 4 of `QuizHandler.solve_single_quiz`: execute the solution,
then branch on execution failure (fix-retry or fallback), empty submission
(fallback), and the truthiness / identity-with-`False` check on `correct`
(feedback-retry, skip, terminal incorrect, or error). -/
def solveExecPhase (S : Settings) (url : PyVal) (o : SolveOracle)
    (effs0 : List Effect) : Outcome × List Effect :=
  let ec := execute_code S url o.exec1
  let effs := effs0 ++ ec.2
  if ec.1.success then
    let sub := ec.1.submission_result.getD SubRes.empty
    if SubRes.truthy sub = false then
      (fallbackOutcome o.fallbackResp,
       effs ++ [Effect.fallbackPost url (fallbackPayload S url)])
    else
      let c := SubRes.getCorrect sub
      if pyTruthy c then
        ({ status := Status.correct, next_url := SubRes.getNextUrl sub }, effs)
      else
        match c with
        | PyVal.bool false =>
          let remaining := S.QUIZ_TIMEOUT_SECONDS - o.elapsedParse
          let nxt := SubRes.getNextUrl sub
          if remaining > S.SKIP_THRESHOLD_SECONDS * 2 then
            let rr := retry_with_feedback S url o.feedO
            let out :=
              if !(pyTruthy rr.1.next_url) && pyTruthy nxt then
                { rr.1 with next_url := nxt }
              else rr.1
            (out, effs ++ rr.2)
          else if pyTruthy nxt then
            ({ status := Status.skipped, next_url := nxt }, effs)
          else
            ({ status := Status.incorrect, next_url := PyVal.none }, effs)
        | _ => ({ status := Status.error, next_url := PyVal.none }, effs)
  else
    let remaining := S.QUIZ_TIMEOUT_SECONDS - o.elapsedExec
    if remaining > S.SKIP_THRESHOLD_SECONDS * 2 then
      let rr := retry_with_fix S url o.fixO
      (rr.1, effs ++ rr.2)
    else
      (fallbackOutcome o.fallbackResp,
       effs ++ [Effect.fallbackPost url (fallbackPayload S url)])

/-- Model of `QuizHandler.solve_single_quiz`.  A fetch failure is caught by
the outer handler as ERROR; a first generation failure triggers either one
blind regeneration (given time) or the fallback submission. -/
def solve_single_quiz (S : Settings) (h : QuizHandler) (url : PyVal)
    (time_remaining : Int) (o : SolveOracle) : Outcome × List Effect :=
  if o.fetchOk then
    match o.gen1 with
    | some _ => solveExecPhase S url o [Effect.genCall]
    | Option.none =>
      let remaining := S.QUIZ_TIMEOUT_SECONDS - o.elapsedGen
      if remaining > S.SKIP_THRESHOLD_SECONDS * 2 then
        match o.gen2 with
        | Option.none =>
          ({ status := Status.error, next_url := PyVal.none },
           [Effect.genCall, Effect.genCall])
        | some _ => solveExecPhase S url o [Effect.genCall, Effect.genCall]
      else
        (fallbackOutcome o.fallbackResp,
         [Effect.genCall, Effect.fallbackPost url (fallbackPayload S url)])
  else ({ status := Status.error, next_url := PyVal.none }, [])

/-- The counters accumulated by the chain loop. -/
structure SequenceStats where
  total : Nat
  correct : Nat
  incorrect : Nat
  skipped : Nat
  errors : Nat

def initialStats : SequenceStats :=
  { total := 0, correct := 0, incorrect := 0, skipped := 0, errors := 0 }

/-- One loop iteration's bookkeeping on the stats. -/
def bumpStats (st : SequenceStats) : Status → SequenceStats
  | Status.correct => { st with total := st.total + 1, correct := st.correct + 1 }
  | Status.incorrect => { st with total := st.total + 1, incorrect := st.incorrect + 1 }
  | Status.skipped => { st with total := st.total + 1, skipped := st.skipped + 1 }
  | Status.error => { st with total := st.total + 1, errors := st.errors + 1 }

/-- Per-question oracle of the chain loop: the clock read of the fresh
per-question timer plus the question's solve oracle. -/
structure QuestionOracle where
  elapsedStart : Int
  solve : SolveOracle

/-- Model of `QuizHandler.solve_quiz_sequence`: follow `next_url` while it
is truthy; the oracle list bounds how many iterations are observed. -/
def solve_quiz_sequence (S : Settings) (h : QuizHandler) :
    List QuestionOracle → PyVal → SequenceStats → SequenceStats × List Effect
  | [], _, st => (st, [])
  | q :: qs, url, st =>
    if pyTruthy url then
      let r := solve_single_quiz S h url
        (S.QUIZ_TIMEOUT_SECONDS - q.elapsedStart) q.solve
      let st2 := bumpStats st r.1.status
      if pyTruthy r.1.next_url then
        let rest := solve_quiz_sequence S h qs r.1.next_url st2
        (rest.1, r.2 ++ rest.2)
      else (st2, r.2)
    else (st, [])

/-- The webhook request body. -/
structure QuizRequest where
  email : String
  secret : String
  url : String

/-- Model of the auth gate of `handle_quiz` (main.py): a request whose
secret differs from the configured one is rejected before any chain starts;
an accepted request spawns a handler built from the request's email and
secret, solving from the request's url. -/
def handle_quiz (S : Settings) (r : QuizRequest) : Option (QuizHandler × String) :=
  if r.secret = S.STUDENT_SECRET then
    some ({ email := r.email, secret := r.secret }, r.url)
  else Option.none

/-- The outbound effect trace of the chain spawned by a webhook request
(`none` when the request is rejected). -/
def chainTrace (S : Settings) (r : QuizRequest) (qs : List QuestionOracle) :
    Option (List Effect) :=
  match handle_quiz S r with
  | some hr => some (solve_quiz_sequence S hr.1 qs (PyVal.str hr.2) initialStats).2
  | Option.none => Option.none

/- Shared helper lemmas and concrete fixtures. -/

/-- Scavenger candidates that fail both parse strategies are skipped: if
every candidate fails, the scavenger leaves the verdict untouched. -/
theorem applyScav_of_all_fail (cs : List (List Char)) (sub : Submission)
    (h : cs.all (fun c => (blobParse c).isNone) = true) :
    applyScav cs sub = sub := by
  induction cs with
  | nil => rfl
  | cons c rest ih =>
    have hc : (blobParse c).isNone = true := by
      have := List.all_eq_true.mp h c (List.mem_cons_self c rest)
      exact this
    have hrest : rest.all (fun c => (blobParse c).isNone) = true := by
      refine List.all_eq_true.mpr ?_
      intro x hx
      exact List.all_eq_true.mp h x (List.mem_cons_of_mem c hx)
    unfold applyScav
    cases hb : blobParse c with
    | none => exact ih hrest
    | some v => rw [hb] at hc; simp [Option.isNone] at hc

/-- The constructors of `SubRes` are distinct: an empty submission dict is
distinguishable from a verdict dict, whatever its fields. -/
theorem subres_empty_ne_verdict (v : Submission) :
    SubRes.empty ≠ SubRes.verdict v := fun h => SubRes.noConfusion h

/-- The handler's constructor arguments are not consulted by
`solve_single_quiz`; two handlers give definitionally equal runs. -/
theorem solve_single_quiz_handler_irrel (S : Settings) (h h2 : QuizHandler)
    (url : PyVal) (t : Int) (o : SolveOracle) :
    solve_single_quiz S h url t o = solve_single_quiz S h2 url t o := rfl

/-- Handler independence extends to the whole chain loop. -/
theorem solve_quiz_sequence_handler_irrel (S : Settings) (h h2 : QuizHandler)
    (qs : List QuestionOracle) (url : PyVal) (st : SequenceStats) :
    solve_quiz_sequence S h qs url st = solve_quiz_sequence S h2 qs url st := by
  induction qs generalizing url st with
  | nil => rfl
  | cons q rest ih =>
    unfold solve_quiz_sequence
    rw [solve_single_quiz_handler_irrel S h h2 url _ q.solve]
    by_cases hu : pyTruthy url = true
    · simp only [hu, if_true]
      rw [ih]
    · simp only [Bool.not_eq_true] at hu
      simp [hu]

/- Concrete fixtures used by counterexamples and witnesses. -/

/-- Settings with the config.py defaults for the timing fields. -/
def S0 : Settings :=
  { QUIZ_TIMEOUT_SECONDS := 180, SKIP_THRESHOLD_SECONDS := 15,
    STUDENT_EMAIL := "cfg@example.com", STUDENT_SECRET := "cfgsecret" }

/-- A handler built from a webhook request's fields. -/
def h0 : QuizHandler := { email := "req@example.com", secret := "cfgsecret" }

/-- A captured output whose primary blob sets `next_url` but leaves
`correct` unset, followed by a differently-shaped blob with `correct`. -/
def sC2cx : String :=
  "Response: \x7b\"url\": \"A\"\x7d \x7b\"correct\": true\x7d"

/-- A captured output whose primary blob sets `correct` to `False`,
followed by a blob claiming `correct: true`. -/
def sC2w : String :=
  "Response: \x7b\"correct\": false\x7d \x7b\"correct\": true\x7d"

/-- A captured output with no status, no response label, and one scavenger
candidate that fails both parse strategies. -/
def sC3w : String :=
  "no verdict here \x7bmalformed \x27correct\x27 oops\x7d end"

/-- C2, counterexample: the primary extraction sets `next_url` to `"A"`
(with `correct` still unset), yet the full parse returns `next_url = None`:
the scavenger overwrote a field set by an earlier step, contradicting the
claim that no later step overwrites a field once set. -/
theorem C2_counterexample :
    (primaryPhase sC2cx).1.next_url = PyVal.str "A" ∧
    (primaryPhase sC2cx).1.correct = PyVal.none ∧
    (parse_submission_result sC2cx).next_url = PyVal.none ∧
    (parse_submission_result sC2cx).correct = PyVal.bool true :=
  ⟨rfl, rfl, rfl, rfl⟩

/-- C2, amended: the scavenger runs only when `correct` is still unset
after the primary extraction; whenever the primary phase determines
`correct` (in particular to `False`), the parse result is exactly the
primary result — no later step changes any field.  (When `correct` is
unset the scavenger may overwrite `next_url` and `reason`, as the
counterexample shows.) -/
theorem C2_scavenger_gated_on_unset_correct (s : String)
    (h : (primaryPhase s).1.correct ≠ PyVal.none) :
    parse_submission_result s = (primaryPhase s).1 := by
  unfold parse_submission_result
  rcases hp : primaryPhase s with ⟨sub, cont⟩
  rw [hp] at h
  cases cont with
  | false => rfl
  | true =>
    cases hc : sub.correct with
    | none => exact absurd hc h
    | bool b => simp [hc]
    | int n => simp [hc]
    | str s2 => simp [hc]
    | list xs => simp [hc]
    | dict kvs => simp [hc]

/-- C2, witness: with `correct: false` in the primary blob and a later
conflicting `correct: true` blob, the verdict keeps `correct = False`. -/
theorem C2_witness :
    (primaryPhase sC2w).1.correct ≠ PyVal.none ∧
    parse_submission_result sC2w = (primaryPhase sC2w).1 := by
  have h : (primaryPhase sC2w).1.correct ≠ PyVal.none := by
    intro hc
    have hv : (primaryPhase sC2w).1.correct = PyVal.bool false := rfl
    rw [hv] at hc
    exact PyVal.noConfusion hc
  exact ⟨h, C2_scavenger_gated_on_unset_correct sC2w h⟩

/-- C3: the parser is a total function of the captured output (it returns
a `Submission` on every string), and when no step finds anything — no
status-code match, no response-body match, and every scavenger candidate
fails both parse strategies (such candidates are skipped, not errors) —
the returned verdict has all four fields `None`. -/
theorem C3_unmatched_input_gives_all_none (s : String)
    (h1 : statusSearch s = Option.none)
    (h2 : respSearch s = Option.none)
    (h3 : (scavCands s).all (fun c => (blobParse c).isNone) = true) :
    parse_submission_result s = emptySubmission := by
  unfold parse_submission_result primaryPhase applyPrimary
  rw [h1, h2]
  exact applyScav_of_all_fail _ _ h3

/-- C3, witness: adversarial text containing one malformed scavenger
candidate parses to the all-`None` verdict without failing. -/
theorem C3_witness :
    statusSearch sC3w = Option.none ∧ respSearch sC3w = Option.none ∧
    (scavCands sC3w).all (fun c => (blobParse c).isNone) = true ∧
    parse_submission_result sC3w = emptySubmission :=
  ⟨rfl, rfl, rfl, C3_unmatched_input_gives_all_none sC3w rfl rfl rfl⟩

/-- C8: `execute_code` always returns a non-null `submission_result`; it is
the empty dict exactly when the captured output is empty and the parsed
verdict of the output otherwise, and the two shapes are distinguishable
(the empty dict never equals a verdict dict, even an all-`None` one). -/
theorem C8_submission_always_present (S : Settings) (url : PyVal) (o : ExecOracle) :
    (execute_code S url o).1.submission_result ≠ Option.none ∧
    (execute_code S url o).1.submission_result =
      some (if o.output = "" then SubRes.empty
            else SubRes.verdict (parse_submission_result o.output)) ∧
    ∀ v : Submission, SubRes.empty ≠ SubRes.verdict v := by
  refine ⟨?_, rfl, subres_empty_ne_verdict⟩
  intro hcontr
  simp [execute_code] at hcontr

/-- An execution oracle for a successful run with given captured output. -/
def execOK (out : String) : ExecOracle :=
  { success := true, output := out, errorMsg := "" }

/-- A baseline solve oracle: fetch succeeds, generation succeeds, execution
succeeds with empty output, all clocks at zero, fallback POST unanswered. -/
def baseSolve : SolveOracle :=
  { fetchOk := true, gen1 := some "code", elapsedGen := 0, gen2 := Option.none,
    exec1 := execOK "", elapsedExec := 0,
    fixO := { elapsed := 0, gen := some "code", exec := execOK "" },
    elapsedParse := 0,
    feedO := { elapsed := 0, gen := some "code", exec := execOK "" },
    fallbackResp := Option.none }

/-- C1, counterexample: with non-empty captured output `"hello"` in which
the parser finds nothing, the controller returns the ERROR terminal outcome
and its effect trace contains no fallback POST at all — the parsed verdict
dict is non-empty (hence truthy) even with every field `None`, so the
`if not submission_result` fallback branch is not taken, contradicting the
claim that the fallback path is taken for non-empty unparseable output. -/
theorem C1_counterexample :
    solve_single_quiz S0 h0 (PyVal.str "http://q") 180
        { baseSolve with exec1 := execOK "hello" } =
      ({ status := Status.error, next_url := PyVal.none },
       [Effect.genCall,
        Effect.inject "cfg@example.com" "cfgsecret" (PyVal.str "http://q")]) := rfl

/-- C1, amended: after a successful execution the fallback submission
(`"FAILED"` POSTed to the quiz URL, outcome taken from the fallback
response) happens exactly when the captured output is empty; for non-empty
output in which the parser finds nothing (all-`None` verdict) the outcome
is the ERROR terminal outcome and no fallback POST is issued. -/
theorem C1_fallback_only_for_empty_output (S : Settings) (h : QuizHandler)
    (url : PyVal) (t : Int) (o : SolveOracle) (c : String)
    (hf : o.fetchOk = true) (hg : o.gen1 = some c) (hs : o.exec1.success = true) :
    (o.exec1.output = "" →
      solve_single_quiz S h url t o =
        (fallbackOutcome o.fallbackResp,
         [Effect.genCall, Effect.inject S.STUDENT_EMAIL S.STUDENT_SECRET url,
          Effect.fallbackPost url (fallbackPayload S url)])) ∧
    (o.exec1.output ≠ "" →
      parse_submission_result o.exec1.output = emptySubmission →
      solve_single_quiz S h url t o =
        ({ status := Status.error, next_url := PyVal.none },
         [Effect.genCall, Effect.inject S.STUDENT_EMAIL S.STUDENT_SECRET url])) := by
  constructor
  · intro hout
    simp [solve_single_quiz, hf, hg, solveExecPhase, execute_code, hs, hout,
      SubRes.truthy]
  · intro hout hparse
    simp [solve_single_quiz, hf, hg, solveExecPhase, execute_code, hs, hout,
      hparse, SubRes.truthy, SubRes.getCorrect, emptySubmission, pyTruthy]

/-- C1, witness: empty captured output triggers the fallback POST with the
`"FAILED"` payload built from the configured credentials. -/
theorem C1_witness :
    solve_single_quiz S0 h0 (PyVal.str "http://q") 180 baseSolve =
      (fallbackOutcome baseSolve.fallbackResp,
       [Effect.genCall,
        Effect.inject S0.STUDENT_EMAIL S0.STUDENT_SECRET (PyVal.str "http://q"),
        Effect.fallbackPost (PyVal.str "http://q")
          (fallbackPayload S0 (PyVal.str "http://q"))]) :=
  (C1_fallback_only_for_empty_output S0 h0 (PyVal.str "http://q") 180 baseSolve
    "code" rfl rfl rfl).1 rfl

/-- C5: on execution failure a fix-retry happens only above twice the skip
threshold — otherwise the fallback is submitted — and the fix helper bails
out immediately (no LLM call, no execution, no effects) when the remaining
time is below the skip threshold. -/
theorem C5_exec_failure_time_policy (S : Settings) (h : QuizHandler)
    (url : PyVal) (t : Int) (o : SolveOracle) (c : String)
    (hf : o.fetchOk = true) (hg : o.gen1 = some c) (hx : o.exec1.success = false) :
    (S.QUIZ_TIMEOUT_SECONDS - o.elapsedExec > S.SKIP_THRESHOLD_SECONDS * 2 →
      solve_single_quiz S h url t o =
        ((retry_with_fix S url o.fixO).1,
         Effect.genCall :: Effect.inject S.STUDENT_EMAIL S.STUDENT_SECRET url ::
           (retry_with_fix S url o.fixO).2)) ∧
    (¬ (S.QUIZ_TIMEOUT_SECONDS - o.elapsedExec > S.SKIP_THRESHOLD_SECONDS * 2) →
      solve_single_quiz S h url t o =
        (fallbackOutcome o.fallbackResp,
         [Effect.genCall, Effect.inject S.STUDENT_EMAIL S.STUDENT_SECRET url,
          Effect.fallbackPost url (fallbackPayload S url)])) ∧
    (S.QUIZ_TIMEOUT_SECONDS - o.fixO.elapsed < S.SKIP_THRESHOLD_SECONDS →
      retry_with_fix S url o.fixO =
        ({ status := Status.error, next_url := PyVal.none }, [])) := by
  refine ⟨?_, ?_, ?_⟩
  · intro htime
    simp [solve_single_quiz, hf, hg, solveExecPhase, execute_code, hx, htime]
  · intro htime
    simp [solve_single_quiz, hf, hg, solveExecPhase, execute_code, hx, htime]
  · intro hlow
    simp [retry_with_fix, hlow]

/-- A solve oracle for scenario D: execution raised with 170 seconds
elapsed, so 10 seconds remain against a 15-second skip threshold. -/
def oC5 : SolveOracle :=
  { baseSolve with
      exec1 := { success := false, output := "", errorMsg := "boom" },
      elapsedExec := 170 }

/-- C5, witness (scenario D): with 10 seconds remaining at the failure and
a 15-second skip threshold, the fallback is submitted, not a fix-retry. -/
theorem C5_witness :
    solve_single_quiz S0 h0 (PyVal.str "http://q") 180 oC5 =
      (fallbackOutcome oC5.fallbackResp,
       [Effect.genCall,
        Effect.inject S0.STUDENT_EMAIL S0.STUDENT_SECRET (PyVal.str "http://q"),
        Effect.fallbackPost (PyVal.str "http://q")
          (fallbackPayload S0 (PyVal.str "http://q"))]) :=
  (C5_exec_failure_time_policy S0 h0 (PyVal.str "http://q") 180 oC5
    "code" rfl rfl rfl).2.1 (by decide)

/-- C6: on an explicit `correct == False` verdict without enough time for a
feedback retry, a truthy `next_url` yields SKIPPED with exactly that URL,
and an absent (falsy) `next_url` yields terminal INCORRECT with none. -/
theorem C6_low_time_skip_or_terminal_incorrect (S : Settings) (h : QuizHandler)
    (url : PyVal) (t : Int) (o : SolveOracle) (c : String)
    (hf : o.fetchOk = true) (hg : o.gen1 = some c) (hs : o.exec1.success = true)
    (hout : o.exec1.output ≠ "")
    (hfal : (parse_submission_result o.exec1.output).correct = PyVal.bool false)
    (ht : ¬ (S.QUIZ_TIMEOUT_SECONDS - o.elapsedParse > S.SKIP_THRESHOLD_SECONDS * 2)) :
    (pyTruthy (parse_submission_result o.exec1.output).next_url = true →
      (solve_single_quiz S h url t o).1 =
        { status := Status.skipped,
          next_url := (parse_submission_result o.exec1.output).next_url }) ∧
    (pyTruthy (parse_submission_result o.exec1.output).next_url = false →
      (solve_single_quiz S h url t o).1 =
        { status := Status.incorrect, next_url := PyVal.none }) := by
  constructor
  · intro hnext
    simp [solve_single_quiz, hf, hg, solveExecPhase, execute_code, hs, hout,
      SubRes.truthy, SubRes.getCorrect, SubRes.getNextUrl, hfal, ht, hnext,
      show pyTruthy (PyVal.bool false) = false from rfl]
  · intro hnext
    simp [solve_single_quiz, hf, hg, solveExecPhase, execute_code, hs, hout,
      SubRes.truthy, SubRes.getCorrect, SubRes.getNextUrl, hfal, ht, hnext,
      show pyTruthy (PyVal.bool false) = false from rfl]

/-- Captured output for scenario E: explicitly incorrect with a next URL. -/
def outC6 : String :=
  "SERVER_RESPONSE: \x7b\"correct\": false, \"url\": \"https://x/n\"\x7d"

/-- A solve oracle for scenario E: explicitly incorrect verdict with a
next URL and only 5 seconds remaining. -/
def oC6 : SolveOracle :=
  { baseSolve with exec1 := execOK outC6, elapsedParse := 175 }

/-- C6, witness (scenario E): `correct: false` with a `next_url` and only 5
seconds remaining gives SKIPPED carrying that URL, not INCORRECT. -/
theorem C6_witness :
    (solve_single_quiz S0 h0 (PyVal.str "http://q") 180 oC6).1 =
      { status := Status.skipped,
        next_url := (parse_submission_result outC6).next_url } :=
  (C6_low_time_skip_or_terminal_incorrect S0 h0 (PyVal.str "http://q") 180
    oC6 "code" rfl rfl rfl (by decide) rfl (by decide)).1 rfl

/-- C7: after a `correct == False` verdict with enough time, the outcome is
the feedback retry's own result, except that the original verdict's truthy
`next_url` is substituted when the retry produced a falsy one. -/
theorem C7_feedback_retry_url_substitution (S : Settings) (h : QuizHandler)
    (url : PyVal) (t : Int) (o : SolveOracle) (c : String)
    (hf : o.fetchOk = true) (hg : o.gen1 = some c) (hs : o.exec1.success = true)
    (hout : o.exec1.output ≠ "")
    (hfal : (parse_submission_result o.exec1.output).correct = PyVal.bool false)
    (ht : S.QUIZ_TIMEOUT_SECONDS - o.elapsedParse > S.SKIP_THRESHOLD_SECONDS * 2) :
    (solve_single_quiz S h url t o).1.status =
      (retry_with_feedback S url o.feedO).1.status ∧
    (solve_single_quiz S h url t o).1.next_url =
      (if !(pyTruthy (retry_with_feedback S url o.feedO).1.next_url) &&
          pyTruthy (parse_submission_result o.exec1.output).next_url
       then (parse_submission_result o.exec1.output).next_url
       else (retry_with_feedback S url o.feedO).1.next_url) := by
  constructor
  · simp [solve_single_quiz, hf, hg, solveExecPhase, execute_code, hs, hout,
      SubRes.truthy, SubRes.getCorrect, SubRes.getNextUrl, hfal, ht,
      show pyTruthy (PyVal.bool false) = false from rfl]
    split <;> simp
  · simp [solve_single_quiz, hf, hg, solveExecPhase, execute_code, hs, hout,
      SubRes.truthy, SubRes.getCorrect, SubRes.getNextUrl, hfal, ht,
      show pyTruthy (PyVal.bool false) = false from rfl]
    split <;> simp

/-- Original captured output for the C7 witness: incorrect, with URL `"A"`. -/
def outC7 : String :=
  "SERVER_RESPONSE: \x7b\"correct\": false, \"url\": \"A\", \"reason\": \"off\"\x7d"

/-- Feedback-retry captured output for the C7 witness: correct, no URL. -/
def outC7r : String := "SERVER_RESPONSE: \x7b\"correct\": true\x7d"

/-- A solve oracle where the first verdict is incorrect with URL `"A"` and
the feedback retry's verdict is correct without a URL. -/
def oC7 : SolveOracle :=
  { baseSolve with
      exec1 := execOK outC7,
      feedO := { elapsed := 0, gen := some "code", exec := execOK outC7r } }

/-- C7, witness: the retry produced no `next_url`, so the original
verdict's `"A"` is substituted into the retry's outcome. -/
theorem C7_witness :
    (solve_single_quiz S0 h0 (PyVal.str "http://q") 180 oC7).1.status =
      (retry_with_feedback S0 (PyVal.str "http://q") oC7.feedO).1.status ∧
    (solve_single_quiz S0 h0 (PyVal.str "http://q") 180 oC7).1.next_url =
      (if !(pyTruthy (retry_with_feedback S0 (PyVal.str "http://q") oC7.feedO).1.next_url) &&
          pyTruthy (parse_submission_result oC7.exec1.output).next_url
       then (parse_submission_result oC7.exec1.output).next_url
       else (retry_with_feedback S0 (PyVal.str "http://q") oC7.feedO).1.next_url) :=
  C7_feedback_retry_url_substitution S0 h0 (PyVal.str "http://q") 180 oC7 "code"
    rfl rfl rfl (by decide) rfl (by decide)

/-- C9: the controller classifies the parsed `correct` value by Python
truthiness and identity — any truthy value (boolean or not) yields CORRECT;
a falsy value other than the exact `False` yields the ERROR terminal
outcome; and exactly `False` enters the incorrect branch, whose status is
decided by the time budget and `next_url` (feedback retry, SKIPPED, or
INCORRECT). -/
theorem C9_truthiness_classification (S : Settings) (h : QuizHandler)
    (url : PyVal) (t : Int) (o : SolveOracle) (c : String)
    (hf : o.fetchOk = true) (hg : o.gen1 = some c) (hs : o.exec1.success = true)
    (hout : o.exec1.output ≠ "") :
    (pyTruthy (parse_submission_result o.exec1.output).correct = true →
      (solve_single_quiz S h url t o).1 =
        { status := Status.correct,
          next_url := (parse_submission_result o.exec1.output).next_url }) ∧
    (pyTruthy (parse_submission_result o.exec1.output).correct = false →
      (parse_submission_result o.exec1.output).correct ≠ PyVal.bool false →
      (solve_single_quiz S h url t o).1 =
        { status := Status.error, next_url := PyVal.none }) ∧
    ((parse_submission_result o.exec1.output).correct = PyVal.bool false →
      (solve_single_quiz S h url t o).1.status =
        (if S.QUIZ_TIMEOUT_SECONDS - o.elapsedParse > S.SKIP_THRESHOLD_SECONDS * 2
         then (retry_with_feedback S url o.feedO).1.status
         else if pyTruthy (parse_submission_result o.exec1.output).next_url
         then Status.skipped else Status.incorrect)) := by
  refine ⟨?_, ?_, ?_⟩
  · intro hv
    simp [solve_single_quiz, hf, hg, solveExecPhase, execute_code, hs, hout,
      SubRes.truthy, SubRes.getCorrect, SubRes.getNextUrl, hv]
  · intro hv hnb
    cases hc : (parse_submission_result o.exec1.output).correct with
    | none =>
      simp [solve_single_quiz, hf, hg, solveExecPhase, execute_code, hs, hout,
        SubRes.truthy, SubRes.getCorrect, SubRes.getNextUrl, hc,
        show pyTruthy PyVal.none = false from rfl]
    | bool b =>
      cases b with
      | false => exact absurd hc hnb
      | true => rw [hc] at hv; simp [pyTruthy] at hv
    | int n =>
      rw [hc] at hv
      simp [pyTruthy] at hv
      simp [solve_single_quiz, hf, hg, solveExecPhase, execute_code, hs, hout,
        SubRes.truthy, SubRes.getCorrect, SubRes.getNextUrl, hc, pyTruthy, hv]
    | str s2 =>
      rw [hc] at hv
      simp [pyTruthy] at hv
      simp [solve_single_quiz, hf, hg, solveExecPhase, execute_code, hs, hout,
        SubRes.truthy, SubRes.getCorrect, SubRes.getNextUrl, hc, pyTruthy, hv]
    | list xs =>
      rw [hc] at hv
      simp [pyTruthy] at hv
      simp [solve_single_quiz, hf, hg, solveExecPhase, execute_code, hs, hout,
        SubRes.truthy, SubRes.getCorrect, SubRes.getNextUrl, hc, pyTruthy, hv]
    | dict kvs =>
      rw [hc] at hv
      simp [pyTruthy] at hv
      simp [solve_single_quiz, hf, hg, solveExecPhase, execute_code, hs, hout,
        SubRes.truthy, SubRes.getCorrect, SubRes.getNextUrl, hc, pyTruthy, hv]
  · intro hc
    simp [solve_single_quiz, hf, hg, solveExecPhase, execute_code, hs, hout,
      SubRes.truthy, SubRes.getCorrect, SubRes.getNextUrl, hc,
      show pyTruthy (PyVal.bool false) = false from rfl]
    split
    · split <;> simp
    · split <;> simp

/-- Captured output whose verdict carries the non-boolean truthy string
`"false"` as its `correct` value. -/
def outC9 : String := "SERVER_RESPONSE: \x7b\"correct\": \"false\"\x7d"

/-- A solve oracle whose execution prints a verdict with `correct` equal to
the string `"false"`. -/
def oC9 : SolveOracle := { baseSolve with exec1 := execOK outC9 }

/-- C9, witness: the truthy non-boolean string `"false"` is classified as
CORRECT by the controller. -/
theorem C9_witness :
    (solve_single_quiz S0 h0 (PyVal.str "http://q") 180 oC9).1 =
      { status := Status.correct,
        next_url := (parse_submission_result outC9).next_url } :=
  (C9_truthiness_classification S0 h0 (PyVal.str "http://q") 180 oC9 "code"
    rfl rfl rfl (by decide)).1 rfl

/-- Recogniser for fallback POST effects. -/
def isFallbackPost : Effect → Bool
  | Effect.fallbackPost _ _ => true
  | _ => false

/-- A fix-retry never reports SKIPPED. -/
theorem retry_with_fix_never_skipped (S : Settings) (url : PyVal) (o2 : HelperOracle) :
    (retry_with_fix S url o2).1.status ≠ Status.skipped := by
  unfold retry_with_fix
  split
  · simp
  · split
    · simp
    · dsimp only
      split
      · split <;> simp
      · simp

/-- A feedback-retry never reports SKIPPED. -/
theorem retry_with_feedback_never_skipped (S : Settings) (url : PyVal) (o2 : HelperOracle) :
    (retry_with_feedback S url o2).1.status ≠ Status.skipped := by
  unfold retry_with_feedback
  split
  · simp
  · dsimp only
    split
    · split
      · simp
      · split <;> simp
    · simp

/-- A fix-retry issues no fallback POST. -/
theorem retry_with_fix_no_fallback (S : Settings) (url : PyVal) (o2 : HelperOracle) :
    (retry_with_fix S url o2).2.all (fun e => !(isFallbackPost e)) = true := by
  unfold retry_with_fix
  split
  · simp
  · split
    · simp [isFallbackPost]
    · dsimp only
      split
      · split <;> simp [execute_code, isFallbackPost]
      · simp [execute_code, isFallbackPost]

/-- A feedback-retry issues no fallback POST. -/
theorem retry_with_feedback_no_fallback (S : Settings) (url : PyVal) (o2 : HelperOracle) :
    (retry_with_feedback S url o2).2.all (fun e => !(isFallbackPost e)) = true := by
  unfold retry_with_feedback
  split
  · simp
  · dsimp only
    split
    · split
      · simp [execute_code, isFallbackPost]
      · split <;> simp [execute_code, isFallbackPost]
    · simp [execute_code, isFallbackPost]

/-- C4: a retry whose single execution succeeds and parses to an
indeterminate verdict (`correct` is `None` — present but neither true nor
false) is mapped to INCORRECT by both helpers, because they judge `correct`
by truthiness alone; and each helper only ever produces CORRECT, INCORRECT
or ERROR, never SKIPPED, and never issues a fallback POST. -/
theorem C4_retry_indeterminate_maps_to_incorrect (S : Settings) (url : PyVal)
    (o : HelperOracle)
    (hrem : ¬ (S.QUIZ_TIMEOUT_SECONDS - o.elapsed < S.SKIP_THRESHOLD_SECONDS))
    (hgen : o.gen.isSome = true)
    (hs : o.exec.success = true)
    (hout : o.exec.output ≠ "")
    (hind : (parse_submission_result o.exec.output).correct = PyVal.none) :
    (retry_with_fix S url o).1.status = Status.incorrect ∧
    (retry_with_feedback S url o).1.status = Status.incorrect ∧
    ∀ o2 : HelperOracle,
      (retry_with_fix S url o2).1.status ≠ Status.skipped ∧
      (retry_with_feedback S url o2).1.status ≠ Status.skipped ∧
      (retry_with_fix S url o2).2.all (fun e => !(isFallbackPost e)) = true ∧
      (retry_with_feedback S url o2).2.all (fun e => !(isFallbackPost e)) = true := by
  obtain ⟨cc, hcc⟩ := Option.isSome_iff_exists.mp hgen
  refine ⟨?_, ?_, ?_⟩
  · simp [retry_with_fix, hrem, hcc, execute_code, hs, hout, SubRes.getCorrect,
      hind, show pyTruthy PyVal.none = false from rfl]
  · simp [retry_with_feedback, hrem, execute_code, hs, hout, SubRes.truthy,
      SubRes.getCorrect, hind, show pyTruthy PyVal.none = false from rfl]
  · intro o2
    exact ⟨retry_with_fix_never_skipped S url o2,
      retry_with_feedback_never_skipped S url o2,
      retry_with_fix_no_fallback S url o2,
      retry_with_feedback_no_fallback S url o2⟩

/-- Retry captured output for the C4 witness: a verdict is present (the
blob parses) but carries no `correct` key, so `correct` is `None`. -/
def outC4 : String := "SERVER_RESPONSE: \x7b\"url\": \"x\"\x7d"

/-- A helper oracle whose single retry execution succeeds and parses to an
indeterminate verdict. -/
def oC4 : HelperOracle := { elapsed := 0, gen := some "code", exec := execOK outC4 }

/-- C4, witness: both helpers map the indeterminate retry verdict to
INCORRECT. -/
theorem C4_witness :
    (retry_with_fix S0 (PyVal.str "http://q") oC4).1.status = Status.incorrect ∧
    (retry_with_feedback S0 (PyVal.str "http://q") oC4).1.status = Status.incorrect := by
  have H := C4_retry_indeterminate_maps_to_incorrect S0 (PyVal.str "http://q") oC4
    (by decide) rfl rfl (by decide) rfl
  exact ⟨H.1, H.2.1⟩

/-- C10: outbound payloads of the chain (fallback POST bodies and the
credentials injected into executed code) are built from the configured
settings, never from the triggering request's email or secret; two accepted
requests differing only in their email field produce identical outbound
effect traces, and a request is accepted exactly when its secret equals the
configured secret. -/
theorem C10_outbound_independent_of_request_identity (S : Settings)
    (r1 r2 : QuizRequest) (qs : List QuestionOracle)
    (h1 : r1.secret = S.STUDENT_SECRET) (h2 : r2.secret = S.STUDENT_SECRET)
    (hu : r1.url = r2.url) :
    chainTrace S r1 qs = chainTrace S r2 qs ∧
    ∀ r : QuizRequest, (handle_quiz S r).isSome = true ↔ r.secret = S.STUDENT_SECRET := by
  constructor
  · unfold chainTrace handle_quiz
    simp only [h1, h2, hu, if_pos]
    rw [solve_quiz_sequence_handler_irrel S
      { email := r1.email, secret := S.STUDENT_SECRET }
      { email := r2.email, secret := S.STUDENT_SECRET }]
  · intro r
    unfold handle_quiz
    by_cases hr : r.secret = S.STUDENT_SECRET <;> simp [hr]

/-- A one-question chain whose generation fails with little time left, so
the question is answered by the fallback POST. -/
def qsW : List QuestionOracle :=
  [{ elapsedStart := 0,
     solve := { baseSolve with gen1 := Option.none, elapsedGen := 170 } }]

/-- A webhook request from one email. -/
def r1W : QuizRequest :=
  { email := "alice@example.com", secret := "cfgsecret", url := "http://q" }

/-- The same webhook request from a different email. -/
def r2W : QuizRequest :=
  { email := "bob@example.com", secret := "cfgsecret", url := "http://q" }

/-- C10, witness: two accepted requests differing only in email produce the
same outbound trace (including the fallback POST built from settings). -/
theorem C10_witness : chainTrace S0 r1W qsW = chainTrace S0 r2W qsW :=
  (C10_outbound_independent_of_request_identity S0 r1W r2W qsW rfl rfl rfl).1
